import Mathlib

/-!
Verification of the Neoray instance-coordination protocol (src/src/ipc.go),
the GPU buffer update policy (src/cmd/neoray/renderer_gl.go), the input
encoder (key event handling) and the nvim handshake version check
(src/src/nvimproc.go).

The Go code is shallowly embedded: pure fragments become Lean functions,
the per-connection reader of the coordination server becomes a step
function on explicit events, machine integers become Nat with explicit
wrap where the width matters, and code that can panic returns Option.
-/

/- ===================== JSON / Go value model ======================

The coordination protocol serialises IpcFuncCall with encoding/json.
The arguments travel as a Go []interface\x7b\x7d; the values the protocol
carries are JSON scalars (file path strings and line/column numbers).
A Go integer argument is marshalled as a JSON number and unmarshalled
back as a float64, which is how the dispatch code reads it. -/

/-- A JSON scalar value. Numbers are modelled as rationals: Go float64
marshalling round-trips every float exactly, and no arithmetic is done
on these values, so only injectivity of the representation matters. -/
inductive JValue where
  | jnull
  | jbool (b : Bool)
  | jnum (q : ℚ)
  | jstr (s : String)
  deriving DecidableEq, Repr

/-- A dynamically typed Go value as stored in an interface\x7b\x7d argument
slot. goInt is a Go int; goFloat is a Go float64. These are distinct
dynamic types in Go: interface equality between them is false. -/
inductive GoValue where
  | goInt (n : Int)
  | goFloat (q : ℚ)
  | goString (s : String)
  | goBool (b : Bool)
  | goNil
  deriving DecidableEq, Repr

/-- json.Marshal of one argument value. A Go int and the float of equal
value produce the same JSON number text. -/
def encodeGo : GoValue → JValue
  | GoValue.goInt n => JValue.jnum n
  | GoValue.goFloat q => JValue.jnum q
  | GoValue.goString s => JValue.jstr s
  | GoValue.goBool b => JValue.jbool b
  | GoValue.goNil => JValue.jnull

/-- json.Unmarshal of one argument value into interface\x7b\x7d: JSON
numbers decode as float64, strings as string, booleans as bool, null as
nil (the type list is quoted verbatim in a comment in IpcServer.update). -/
def decodeJson : JValue → GoValue
  | JValue.jnum q => GoValue.goFloat q
  | JValue.jstr s => GoValue.goString s
  | JValue.jbool b => GoValue.goBool b
  | JValue.jnull => GoValue.goNil

/-- The value an argument becomes after a marshal/unmarshal round trip. -/
def jsonNorm (a : GoValue) : GoValue := decodeJson (encodeGo a)

/-- Whether a value is already in the image of generic JSON decoding
(no Go int: ints decode as float64). -/
def isJsonForm : GoValue → Bool
  | GoValue.goInt _ => false
  | _ => true

/- ===================== ipc.go: data model ===================== -/

/-- Go: type IpcMessageType int. -/
abbrev IpcMessageType := Int

def IPC_MSG_TYPE_OK : IpcMessageType := 0
def IPC_MSG_TYPE_CLOSE_CONN : IpcMessageType := 1
def IPC_MSG_TYPE_OPEN_FILE : IpcMessageType := 2
def IPC_MSG_TYPE_GOTO_LINE : IpcMessageType := 3
def IPC_MSG_TYPE_GOTO_COLUMN : IpcMessageType := 4

/-- The record exchanged over the coordination protocol (ipc.go).
MacAddress is a uint64; its values come from getMacAddress and are
below 2^64. -/
structure IpcFuncCall where
  MsgType : IpcMessageType
  MacAddress : Nat
  Args : List GoValue
  deriving DecidableEq, Repr

/-- The information content of the JSON text json.Marshal produces for
an IpcFuncCall: the three fields, with the arguments as JSON values.
Integer-typed struct fields (MsgType, MacAddress) marshal and unmarshal
through exact decimal text, so they are kept as they are. -/
structure IpcWireMsg where
  msgType : Int
  macAddress : Nat
  args : List JValue
  deriving DecidableEq, Repr

/-- json.Marshal on an IpcFuncCall. -/
def jsonMarshal (c : IpcFuncCall) : IpcWireMsg :=
  { msgType := c.MsgType, macAddress := c.MacAddress, args := c.Args.map encodeGo }

/-- json.Unmarshal of a well-formed wire message into an IpcFuncCall:
MsgType and MacAddress decode into their declared integer types, the
arguments into interface\x7b\x7d values. -/
def jsonUnmarshal (w : IpcWireMsg) : IpcFuncCall :=
  { MsgType := w.msgType, MacAddress := w.macAddress, Args := w.args.map decodeJson }

/- ===================== ipc.go: getMacAddress ===================== -/

/-- One entry of net.Interfaces(): the up flag (Flags and FlagUp) and the
hardware address bytes. -/
structure NetInterface where
  up : Bool
  hardwareAddr : List (Fin 256)

/-- The accumulation loop body of getMacAddress: for the first 8 bytes,
mac <<= 8; mac += b, on a uint64 (hence the explicit wrap at 2^64). -/
def macFromBytes (addr : List (Fin 256)) : Nat :=
  (addr.take 8).foldl (fun mac b => (mac * 256 + b.val) % 2 ^ 64) 0

/-- The interface scan of getMacAddress: take the first interface that is
up with a nonempty hardware address; if its first byte has bit 1 set
(value 2, locally administered) skip it and continue; otherwise return
the accumulated value. 0 when the list is exhausted. -/
def getMacAddressLoop : List NetInterface → Nat
  | [] => 0
  | i :: rest =>
    if i.up = true ∧ i.hardwareAddr ≠ [] then
      if i.hardwareAddr.headI.val &&& 2 = 2 then getMacAddressLoop rest
      else macFromBytes i.hardwareAddr
    else getMacAddressLoop rest

/-- getMacAddress: none models net.Interfaces() returning an error, in
which case the result is 0. -/
def getMacAddress : Option (List NetInterface) → Nat
  | none => 0
  | some interfaces => getMacAddressLoop interfaces

/-- Claim-side characterisation (from the spec wording, for comparison
with the scan from the source): an interface qualifies when it is up,
has a nonempty hardware address and its first octet does not have its
second-lowest bit set. -/
def usableInterfaceSpec (i : NetInterface) : Bool :=
  i.up && !i.hardwareAddr.isEmpty && !(decide (i.hardwareAddr.headI.val &&& 2 = 2))

/- ===================== ipc.go: IpcClient.Call ===================== -/

/-- What the network did during one IpcClient.Call, after the request was
encoded: the single conn.Write may fail; the single conn.Read may fail;
json.Unmarshal of the bytes read may fail; otherwise a reply record was
decoded. (Encoding the request can also fail in Go, returning false
before any write; no GoValue argument makes json.Marshal fail.) -/
inductive CallNetOutcome where
  | writeError
  | readError
  | decodeError
  | replied (reply : IpcFuncCall)
  deriving DecidableEq, Repr

/-- The observable result of IpcClient.Call: the returned bool and
whether client.conn.Close() was called. -/
structure CallResult where
  success : Bool
  connClosed : Bool
  deriving DecidableEq, Repr

/-- IpcClient.Call, given the client mac and the network outcome.
Mirrors the source order: write error, read error, decode error each
return false; then the mac check; then CLOSE closes the connection and
returns true; then any non-OK reply returns false; OK returns true. -/
def IpcClientCall (clientMac : Nat) (net : CallNetOutcome) : CallResult :=
  match net with
  | CallNetOutcome.writeError => { success := false, connClosed := false }
  | CallNetOutcome.readError => { success := false, connClosed := false }
  | CallNetOutcome.decodeError => { success := false, connClosed := false }
  | CallNetOutcome.replied reply =>
    if reply.MacAddress ≠ clientMac then { success := false, connClosed := false }
    else if reply.MsgType = IPC_MSG_TYPE_CLOSE_CONN then { success := true, connClosed := true }
    else if reply.MsgType ≠ IPC_MSG_TYPE_OK then { success := false, connClosed := false }
    else { success := true, connClosed := false }

/- ===================== ipc.go: IpcServer ===================== -/

/-- Server state touched by the per-connection readers and by update():
the listener (closed only by IpcServer.Close), the server mac, and the
mutex-guarded call queue. -/
structure IpcServerState where
  listenerOpen : Bool
  mac : Nat
  calls : List IpcFuncCall
  deriving DecidableEq, Repr

/-- IpcServer.appendNewCall: appends one call to the queue. -/
def appendNewCall (s : IpcServerState) (call : IpcFuncCall) : IpcServerState :=
  { s with calls := s.calls ++ [call] }

/-- The pre-encoded OK reply of mainLoop (Args nil marshals to null and
decodes back to an empty argument list). -/
def encodedOK (serverMac : Nat) : IpcWireMsg :=
  jsonMarshal { MsgType := IPC_MSG_TYPE_OK, MacAddress := serverMac, Args := [] }

/-- The pre-encoded CLOSE reply of mainLoop. -/
def encodedCLOSE (serverMac : Nat) : IpcWireMsg :=
  jsonMarshal { MsgType := IPC_MSG_TYPE_CLOSE_CONN, MacAddress := serverMac, Args := [] }

/-- One iteration of the per-connection reader goroutine in
IpcServer.mainLoop, seen from outside: either the conn.Read failed, or
the bytes read did not decode, or a message was decoded (writeOk tells
whether the reply write, if one is attempted, succeeds). -/
inductive ReadEvent where
  | readError
  | decodeError
  | msg (m : IpcFuncCall) (writeOk : Bool)
  deriving DecidableEq, Repr

/-- The effect of one reader iteration: the reply whose write is
attempted (none when no write happens), the call appended to the queue
(none when nothing is queued), and whether the reader goroutine
terminates (its deferred conn.Close() then runs). -/
structure ReaderStep where
  reply : Option IpcWireMsg
  queued : Option IpcFuncCall
  halts : Bool
  deriving DecidableEq, Repr

/-- One iteration of the reader loop in IpcServer.mainLoop. Read and
decode failures are logged and the loop continues. An identity mismatch
breaks out of the loop with no reply. CLOSE is answered with the
encoded CLOSE; on write success the goroutine returns, on write failure
the loop continues. Every other message is appended to the queue via
appendNewCall and answered with the encoded OK, and the loop continues
whether or not that write succeeds. -/
def serverReaderStep (serverMac : Nat) (ev : ReadEvent) : ReaderStep :=
  match ev with
  | ReadEvent.readError => { reply := none, queued := none, halts := false }
  | ReadEvent.decodeError => { reply := none, queued := none, halts := false }
  | ReadEvent.msg m writeOk =>
    if m.MacAddress ≠ serverMac then { reply := none, queued := none, halts := true }
    else if m.MsgType = IPC_MSG_TYPE_CLOSE_CONN then
      { reply := some (encodedCLOSE serverMac), queued := none, halts := writeOk }
    else
      { reply := some (encodedOK serverMac), queued := some m, halts := false }

/-- One reader iteration applied to the server state. The reader
goroutine only ever calls appendNewCall and conn.Write; it never touches
the listener, so listenerOpen is carried through unchanged. -/
def serverHandleEvent (s : IpcServerState) (ev : ReadEvent) : IpcServerState × ReaderStep :=
  let step := serverReaderStep s.mac ev
  (match step.queued with
   | some call => appendNewCall s call
   | none => s,
   step)

/- ===================== ipc.go: IpcServer.update ===================== -/

/-- Go int(f) on a float64: truncation toward zero. -/
def goIntOfFloat (q : ℚ) : Int := if 0 ≤ q then ⌊q⌋ else ⌈q⌉

/-- The operation dispatched for one queued call. -/
inductive NvimOp where
  | openFile (path : String)
  | gotoLine (line : Int)
  | gotoColumn (col : Int)
  | invalidSignal (c : IpcFuncCall)
  deriving DecidableEq, Repr

/-- Dispatch of one queued call in IpcServer.update. The source reads
call.Args[0] with an unchecked type assertion: an empty Args or a first
element of the wrong dynamic type panics, modelled as none. Any message
type outside the three dispatchable ones only logs a warning. -/
def dispatchIpcCall (c : IpcFuncCall) : Option NvimOp :=
  if c.MsgType = IPC_MSG_TYPE_OPEN_FILE then
    match c.Args with
    | GoValue.goString path :: _ => some (NvimOp.openFile path)
    | _ => none
  else if c.MsgType = IPC_MSG_TYPE_GOTO_LINE then
    match c.Args with
    | GoValue.goFloat q :: _ => some (NvimOp.gotoLine (goIntOfFloat q))
    | _ => none
  else if c.MsgType = IPC_MSG_TYPE_GOTO_COLUMN then
    match c.Args with
    | GoValue.goFloat q :: _ => some (NvimOp.gotoColumn (goIntOfFloat q))
    | _ => none
  else some (NvimOp.invalidSignal c)

/-- The dispatch loop of IpcServer.update over the drained queue: a
panic anywhere aborts the whole tick (none). After the loop the queue is
cleared and the window raised; the claims only concern the dispatch. -/
def IpcServerUpdate : List IpcFuncCall → Option (List NvimOp)
  | [] => some []
  | c :: rest =>
    match dispatchIpcCall c with
    | none => none
    | some op => (IpcServerUpdate rest).map (fun ops => op :: ops)

/-- The precondition under which the unchecked assertions of
IpcServer.update cannot panic on a call: a dispatchable message type
must carry a nonempty Args whose first element has the expected dynamic
type (string for OPEN_FILE, float64 for the goto calls). -/
def ipcCallArgsWellFormed (c : IpcFuncCall) : Bool :=
  if c.MsgType = IPC_MSG_TYPE_OPEN_FILE then
    match c.Args with
    | GoValue.goString _ :: _ => true
    | _ => false
  else if c.MsgType = IPC_MSG_TYPE_GOTO_LINE ∨ c.MsgType = IPC_MSG_TYPE_GOTO_COLUMN then
    match c.Args with
    | GoValue.goFloat _ :: _ => true
    | _ => false
  else true

/- ============== renderer_gl.go: buffer update policy ============== -/

/-- The vertex layout of renderer_gl.go: position, atlas UV, color,
isTextured flag. The float fields are only carried, never computed on. -/
structure Vertex where
  X : ℚ
  Y : ℚ
  TexX : ℚ
  TexY : ℚ
  R : ℚ
  G : ℚ
  B : ℚ
  A : ℚ
  useTexture : ℚ
  deriving DecidableEq, Repr

/-- Which OpenGL upload a buffer update issued. -/
inductive GLUploadKind where
  | bufferData
  | bufferSubData
  deriving DecidableEq, Repr

/-- RGL_UpdateVertexData: when the recorded length differs from the data
length, reallocate and upload with gl.BufferData and record the new
length; otherwise patch in place with gl.BufferSubData. Returns the new
recorded length and which upload was issued. -/
def RGL_UpdateVertexData (bufferLen : Nat) (data : List Vertex) : Nat × GLUploadKind :=
  if bufferLen ≠ data.length then (data.length, GLUploadKind.bufferData)
  else (bufferLen, GLUploadKind.bufferSubData)

/-- RGL_UpdateElementData: same policy for the element (index) buffer,
whose entries are uint32 indices. -/
def RGL_UpdateElementData (bufferLen : Nat) (data : List Nat) : Nat × GLUploadKind :=
  if bufferLen ≠ data.length then (data.length, GLUploadKind.bufferData)
  else (bufferLen, GLUploadKind.bufferSubData)

/- ============== input encoder: key events (part_000) ============== -/

/-- The SpecialKeys table, keyed by the GLFW key code. -/
def SpecialKeys (key : Int) : Option String :=
  if key = 256 then some ("ESC")
  else if key = 257 then some ("CR")
  else if key = 335 then some ("kEnter")
  else if key = 32 then some ("Space")
  else if key = 259 then some ("BS")
  else if key = 265 then some ("Up")
  else if key = 264 then some ("Down")
  else if key = 262 then some ("Right")
  else if key = 263 then some ("Left")
  else if key = 258 then some ("Tab")
  else if key = 260 then some ("Insert")
  else if key = 261 then some ("Del")
  else if key = 268 then some ("Home")
  else if key = 269 then some ("End")
  else if key = 266 then some ("PageUp")
  else if key = 267 then some ("PageDown")
  else if key = 290 then some ("F1")
  else if key = 291 then some ("F2")
  else if key = 292 then some ("F3")
  else if key = 293 then some ("F4")
  else if key = 294 then some ("F5")
  else if key = 295 then some ("F6")
  else if key = 296 then some ("F7")
  else if key = 297 then some ("F8")
  else if key = 298 then some ("F9")
  else if key = 299 then some ("F10")
  else if key = 300 then some ("F11")
  else if key = 301 then some ("F12")
  else none

/-- The ModifierKeys table: left and right variants alias to one letter. -/
def ModifierKeys (key : Int) : Option Char :=
  if key = 341 ∨ key = 345 then some 'C'
  else if key = 342 ∨ key = 346 then some 'A'
  else if key = 340 ∨ key = 344 then some 'S'
  else if key = 343 ∨ key = 347 then some 'D'
  else none

/-- GLFW key event actions. -/
inductive GlfwAction where
  | press
  | release
  | repeatKey
  deriving DecidableEq, Repr

def modShift (mods : Nat) : Bool := mods &&& 1 != 0
def modControl (mods : Nat) : Bool := mods &&& 2 != 0
def modAlt (mods : Nat) : Bool := mods &&& 4 != 0
def modSuper (mods : Nat) : Bool := mods &&& 8 != 0

/-- The options read by KeyEventHandler, with the defaults set in
InitializeInputEvents. -/
structure InputOptions where
  zoomInKey : String
  zoomOutKey : String
  toggleFullscreenKey : String
  popupMenuEnabled : Bool
  deriving DecidableEq, Repr

def defaultInputOptions : InputOptions :=
  { zoomInKey := "<C-+>", zoomOutKey := "<C-->",
    toggleFullscreenKey := "<F11>", popupMenuEnabled := true }

/-- The name resolution of KeyEventHandler for a non-modifier,
non-release event: the SpecialKeys entry when there is one; otherwise
the event is dropped when Shift, Alt or Super is active; otherwise with
Control active the platform lookup glfw.GetKeyName is used and an empty
result drops the event; with no modifier at all the name stays the empty
string. none means the handler returned without forwarding. -/
def resolveKeyname (getKeyName : Int → Int → String) (key scancode : Int)
    (ctrl shift alt sup : Bool) : Option String :=
  match SpecialKeys key with
  | some name => some name
  | none =>
    if shift || alt || sup then none
    else if ctrl then
      let name := getKeyName key scancode
      if name = "" then none else some name
    else some ("")

/-- Token construction: the angle brackets around the modifier prefixes
in the fixed order C, S, A, D followed by the key name. -/
def buildKeycode (ctrl shift alt sup : Bool) (keyname : String) : String :=
  "<" ++ (if ctrl then "C-" else "") ++ (if shift then "S-" else "")
      ++ (if alt then "A-" else "") ++ (if sup then "D-" else "")
      ++ keyname ++ ">"

/-- What one KeyEventHandler invocation did: the updated modifier
tracking string, the token forwarded to nvim.Input (none when nothing
was forwarded), the intercepted Neoray binding action, and whether
popupMenu.Hide() was called. -/
inductive NeorayBinding where
  | zoomIn
  | zoomOut
  | toggleFullscreen
  deriving DecidableEq, Repr

structure KeyHandlerResult where
  lastMouseModifiers : String
  forwarded : Option String
  binding : Option NeorayBinding
  menuHidden : Bool
  deriving DecidableEq, Repr

/-- KeyEventHandler from part_000. A modifier key only updates the
lastMouseModifiers tracking string. For any other key, on press or
repeat, a name is resolved and the token built; the token is matched in
order against the zoom-in, zoom-out and fullscreen bindings, each of
which consumes the event; the fixed token matching ESC hides the popup
menu when the popup menu feature is enabled and then falls through; the
token is then forwarded to nvim.Input. -/
def KeyEventHandler (opts : InputOptions) (getKeyName : Int → Int → String)
    (lastMods : String) (key scancode : Int) (action : GlfwAction) (mods : Nat) :
    KeyHandlerResult :=
  match ModifierKeys key with
  | some code =>
    if action = GlfwAction.press then
      if lastMods.contains code then
        { lastMouseModifiers := lastMods, forwarded := none, binding := none, menuHidden := false }
      else
        { lastMouseModifiers := lastMods.push code, forwarded := none, binding := none,
          menuHidden := false }
    else if action = GlfwAction.release ∧ lastMods ≠ "" then
      { lastMouseModifiers := String.mk (lastMods.toList.erase code), forwarded := none,
        binding := none, menuHidden := false }
    else
      { lastMouseModifiers := lastMods, forwarded := none, binding := none, menuHidden := false }
  | none =>
    if action ≠ GlfwAction.release then
      let ctrl := modControl mods
      let shift := modShift mods
      let alt := modAlt mods
      let sup := modSuper mods
      match resolveKeyname getKeyName key scancode ctrl shift alt sup with
      | none =>
        { lastMouseModifiers := lastMods, forwarded := none, binding := none, menuHidden := false }
      | some keyname =>
        let keycode := buildKeycode ctrl shift alt sup keyname
        if keycode = opts.zoomInKey then
          { lastMouseModifiers := lastMods, forwarded := none,
            binding := some NeorayBinding.zoomIn, menuHidden := false }
        else if keycode = opts.zoomOutKey then
          { lastMouseModifiers := lastMods, forwarded := none,
            binding := some NeorayBinding.zoomOut, menuHidden := false }
        else if keycode = opts.toggleFullscreenKey then
          { lastMouseModifiers := lastMods, forwarded := none,
            binding := some NeorayBinding.toggleFullscreen, menuHidden := false }
        else if keycode = "<ESC>" then
          { lastMouseModifiers := lastMods, forwarded := some keycode, binding := none,
            menuHidden := opts.popupMenuEnabled }
        else
          { lastMouseModifiers := lastMods, forwarded := some keycode, binding := none,
            menuHidden := false }
    else
      { lastMouseModifiers := lastMods, forwarded := none, binding := none, menuHidden := false }

/- ============== nvimproc.go: version check ============== -/

/-- The version gate in NvimProcess.requestApiInfo: the code fatals
exactly when the reported minor version is below 4; the major and patch
components are read but not compared. -/
def requestApiInfoFatal (vMajor vMinor vPatch : Int) : Bool :=
  let _ := vMajor
  let _ := vPatch
  decide (vMinor < 4)

/-- Claim-side characterisation (from the spec wording, for comparison
with the gate from the source): the reported version triple is
lexicographically below the minimum supported version 0.4.0. -/
def versionBelowMinSpec (vMajor vMinor vPatch : Int) : Bool :=
  decide (vMajor < 0) ||
  (decide (vMajor = 0) && (decide (vMinor < 4) ||
    (decide (vMinor = 4) && decide (vPatch < 0))))

/- ===================== helper lemmas ===================== -/

/-- A value already in the image of JSON decoding is fixed by the round
trip. -/
theorem jsonNorm_of_isJsonForm (a : GoValue) (h : isJsonForm a = true) : jsonNorm a = a := by
  cases a <;> first
    | rfl
    | simp [isJsonForm] at h

/-- Lists of JSON-form values are fixed elementwise by the round trip. -/
theorem map_jsonNorm_of_forall (l : List GoValue) (h : ∀ a ∈ l, isJsonForm a = true) :
    l.map jsonNorm = l := by
  induction l with
  | nil => rfl
  | cons a t ih =>
    simp only [List.map_cons]
    rw [jsonNorm_of_isJsonForm a (h a (List.mem_cons_self a t)),
      ih (fun b hb => h b (List.mem_cons_of_mem a hb))]

/-- The plain big-endian byte fold is bounded by the accumulator bound
times the radix power. -/
theorem macFoldPlain_lt (l : List (Fin 256)) :
    ∀ acc : Nat, l.foldl (fun mac b => mac * 256 + b.val) acc < (acc + 1) * 256 ^ l.length := by
  induction l with
  | nil =>
    intro acc
    simp only [List.foldl_nil, List.length_nil, pow_zero, mul_one]
    omega
  | cons b t ih =>
    intro acc
    simp only [List.foldl_cons, List.length_cons]
    calc t.foldl (fun mac b => mac * 256 + b.val) (acc * 256 + b.val)
        < (acc * 256 + b.val + 1) * 256 ^ t.length := ih _
      _ ≤ ((acc + 1) * 256) * 256 ^ t.length := by
          have hb : b.val + 1 ≤ 256 := b.isLt
          exact Nat.mul_le_mul_right _ (by omega)
      _ = (acc + 1) * 256 ^ (t.length + 1) := by rw [pow_succ]; ring

/-- While all intermediate accumulations stay below 2^64, the uint64
wrap in the fold never fires. -/
theorem macFoldMod_eq (l : List (Fin 256)) :
    ∀ acc : Nat, (acc + 1) * 256 ^ l.length ≤ 2 ^ 64 →
      l.foldl (fun mac b => (mac * 256 + b.val) % 2 ^ 64) acc
        = l.foldl (fun mac b => mac * 256 + b.val) acc := by
  induction l with
  | nil => intro acc _; rfl
  | cons b t ih =>
    intro acc h
    simp only [List.foldl_cons]
    have hpow : (1 : Nat) ≤ 256 ^ t.length := Nat.one_le_pow _ _ (by norm_num)
    have hstep : (acc + 1) * 256 * 256 ^ t.length ≤ 2 ^ 64 := by
      have heq2 : (acc + 1) * 256 ^ (t.length + 1) = (acc + 1) * 256 * 256 ^ t.length := by
        rw [pow_succ]; ring
      rw [List.length_cons, heq2] at h
      exact h
    have hb : b.val + 1 ≤ 256 := b.isLt
    have hlt : acc * 256 + b.val < 2 ^ 64 := by
      have h1 : (acc + 1) * 256 ≤ 2 ^ 64 :=
        le_trans (Nat.le_mul_of_pos_right _ (by omega)) hstep
      have : acc * 256 + b.val < (acc + 1) * 256 := by omega
      omega
    rw [Nat.mod_eq_of_lt hlt]
    exact ih _ (le_trans (Nat.mul_le_mul_right _ (by omega)) hstep)

/-- The byte accumulation equals the plain fold and fits in 64 bits. -/
theorem macFromBytes_eq_plain (addr : List (Fin 256)) :
    macFromBytes addr = (addr.take 8).foldl (fun mac b => mac * 256 + b.val) 0 ∧
    macFromBytes addr < 2 ^ 64 := by
  have hlen : (addr.take 8).length ≤ 8 := by
    simp only [List.length_take]
    omega
  have hbound : (0 + 1) * 256 ^ (addr.take 8).length ≤ 2 ^ 64 := by
    have h1 : (256 : Nat) ^ (addr.take 8).length ≤ 256 ^ 8 :=
      Nat.pow_le_pow_right (by norm_num) hlen
    have h2 : (256 : Nat) ^ 8 = 2 ^ 64 := by norm_num
    omega
  have heq : macFromBytes addr = (addr.take 8).foldl (fun mac b => mac * 256 + b.val) 0 :=
    macFoldMod_eq (addr.take 8) 0 hbound
  refine ⟨heq, ?_⟩
  rw [heq]
  have := macFoldPlain_lt (addr.take 8) 0
  have h1 : (256 : Nat) ^ (addr.take 8).length ≤ 2 ^ 64 := by simpa using hbound
  omega

/-- The interface scan returns the accumulated address of the first
interface satisfying the combined predicate. -/
theorem getMacAddressLoop_eq_find (ifs : List NetInterface) :
    getMacAddressLoop ifs =
      ((ifs.find? usableInterfaceSpec).map fun i => macFromBytes i.hardwareAddr).getD 0 := by
  induction ifs with
  | nil => rfl
  | cons i rest ih =>
    by_cases hup : i.up = true ∧ i.hardwareAddr ≠ []
    · by_cases hloc : i.hardwareAddr.headI.val &&& 2 = 2
      · have hq : usableInterfaceSpec i = false := by
          simp [usableInterfaceSpec, hup.1, hloc]
        simp [getMacAddressLoop, hup, hloc, List.find?_cons, hq, ih]
      · have hq : usableInterfaceSpec i = true := by
          simp [usableInterfaceSpec, hup.1, hloc, List.isEmpty_iff, hup.2]
        simp [getMacAddressLoop, hup, hloc, List.find?_cons, hq]
    · have hq : usableInterfaceSpec i = false := by
        rcases not_and_or.mp hup with h | h
        · have hfalse : i.up = false := by
            cases hup2 : i.up
            · rfl
            · exact absurd hup2 h
          simp [usableInterfaceSpec, hfalse]
        · have hnil : i.hardwareAddr = [] := not_not.mp h
          simp [usableInterfaceSpec, hnil]
      simp [getMacAddressLoop, hup, List.find?_cons, hq, ih]

/-- A well-formed call never panics in dispatch. -/
theorem dispatchIpcCall_isSome_of_wf (c : IpcFuncCall) (h : ipcCallArgsWellFormed c = true) :
    (dispatchIpcCall c).isSome = true := by
  unfold ipcCallArgsWellFormed at h
  unfold dispatchIpcCall
  by_cases h1 : c.MsgType = IPC_MSG_TYPE_OPEN_FILE
  · rw [if_pos h1] at h ⊢
    cases hargs : c.Args with
    | nil => simp [hargs] at h
    | cons a t => cases a <;> simp_all [hargs]
  · rw [if_neg h1] at h ⊢
    by_cases h2 : c.MsgType = IPC_MSG_TYPE_GOTO_LINE ∨ c.MsgType = IPC_MSG_TYPE_GOTO_COLUMN
    · rw [if_pos h2] at h
      by_cases h2a : c.MsgType = IPC_MSG_TYPE_GOTO_LINE
      · rw [if_pos h2a]
        cases hargs : c.Args with
        | nil => simp [hargs] at h
        | cons a t => cases a <;> simp_all [hargs]
      · have h2b : c.MsgType = IPC_MSG_TYPE_GOTO_COLUMN := h2.resolve_left h2a
        rw [if_neg h2a, if_pos h2b]
        cases hargs : c.Args with
        | nil => simp [hargs] at h
        | cons a t => cases a <;> simp_all [hargs]
    · rcases not_or.mp h2 with ⟨h2a, h2b⟩
      rw [if_neg h2a, if_neg h2b]
      rfl

/- ===================== claim theorems ===================== -/

/-- Claim C1, counterexample: a GOTO_LINE record whose single argument
is the Go int 5 does not round-trip exactly through json.Marshal and
json.Unmarshal: the argument comes back as the float64 5, a different
dynamic type, so the decoded Args differ from the original. -/
theorem jsonRoundTrip_counterexample :
    jsonUnmarshal (jsonMarshal
        { MsgType := IPC_MSG_TYPE_GOTO_LINE, MacAddress := 0, Args := [GoValue.goInt 5] })
      ≠ { MsgType := IPC_MSG_TYPE_GOTO_LINE, MacAddress := 0, Args := [GoValue.goInt 5] } := by
  decide

/-- Claim C1 (amended): for every message type and argument list,
encoding an IpcFuncCall with json.Marshal and decoding it with
json.Unmarshal preserves MsgType and MacAddress exactly and maps each
argument to its JSON-decoded form; Args is preserved exactly whenever
every argument is already a JSON-decoded value (a string, bool, float64
or nil - integer arguments come back as float64 numbers). -/
theorem jsonRoundTrip_spec (c : IpcFuncCall) :
    (jsonUnmarshal (jsonMarshal c)).MsgType = c.MsgType ∧
    (jsonUnmarshal (jsonMarshal c)).MacAddress = c.MacAddress ∧
    (jsonUnmarshal (jsonMarshal c)).Args = c.Args.map jsonNorm ∧
    ((∀ a ∈ c.Args, isJsonForm a = true) → jsonUnmarshal (jsonMarshal c) = c) := by
  refine ⟨rfl, rfl, ?_, ?_⟩
  · simp only [jsonUnmarshal, jsonMarshal, List.map_map]
    rfl
  · intro h
    simp only [jsonUnmarshal, jsonMarshal, List.map_map]
    have hmap : c.Args.map (decodeJson ∘ encodeGo) = c.Args := by
      have : c.Args.map (decodeJson ∘ encodeGo) = c.Args.map jsonNorm := rfl
      rw [this, map_jsonNorm_of_forall c.Args h]
    rw [hmap]

/-- Claim C1 witness: the round trip is exact on an OPEN_FILE call with
a string argument. -/
theorem jsonRoundTrip_spec_witness :
    jsonUnmarshal (jsonMarshal
        { MsgType := IPC_MSG_TYPE_OPEN_FILE, MacAddress := 3, Args := [GoValue.goString "foo.txt"] })
      = { MsgType := IPC_MSG_TYPE_OPEN_FILE, MacAddress := 3, Args := [GoValue.goString "foo.txt"] } :=
  (jsonRoundTrip_spec
    { MsgType := IPC_MSG_TYPE_OPEN_FILE, MacAddress := 3,
      Args := [GoValue.goString "foo.txt"] }).2.2.2 (by decide)

/-- Claim C2: IpcClient.Call reports failure on a reply whose machine
identity differs from the client identity; on a matching identity a
CLOSE reply closes the connection and reports success, an OK reply
reports success, and any other reply type reports failure; a write,
read or decode error also reports failure. -/
theorem ipcClientCall_spec (mac : Nat) (reply : IpcFuncCall) :
    (reply.MacAddress ≠ mac →
      IpcClientCall mac (CallNetOutcome.replied reply) = { success := false, connClosed := false }) ∧
    (reply.MacAddress = mac → reply.MsgType = IPC_MSG_TYPE_CLOSE_CONN →
      IpcClientCall mac (CallNetOutcome.replied reply) = { success := true, connClosed := true }) ∧
    (reply.MacAddress = mac → reply.MsgType = IPC_MSG_TYPE_OK →
      IpcClientCall mac (CallNetOutcome.replied reply) = { success := true, connClosed := false }) ∧
    (reply.MacAddress = mac → reply.MsgType ≠ IPC_MSG_TYPE_CLOSE_CONN →
      reply.MsgType ≠ IPC_MSG_TYPE_OK →
      IpcClientCall mac (CallNetOutcome.replied reply) = { success := false, connClosed := false }) ∧
    IpcClientCall mac CallNetOutcome.writeError = { success := false, connClosed := false } ∧
    IpcClientCall mac CallNetOutcome.readError = { success := false, connClosed := false } ∧
    IpcClientCall mac CallNetOutcome.decodeError = { success := false, connClosed := false } := by
  refine ⟨?_, ?_, ?_, ?_, rfl, rfl, rfl⟩
  · intro h
    simp [IpcClientCall, h]
  · intro h1 h2
    simp [IpcClientCall, h1, h2]
  · intro h1 h2
    simp [IpcClientCall, h1, h2, IPC_MSG_TYPE_OK, IPC_MSG_TYPE_CLOSE_CONN]
  · intro h1 h2 h3
    simp [IpcClientCall, h1, h2, h3]

/-- Claim C2 witness: a matching CLOSE reply closes the connection and
reports success. -/
theorem ipcClientCall_spec_witness :
    IpcClientCall 5 (CallNetOutcome.replied
        { MsgType := IPC_MSG_TYPE_CLOSE_CONN, MacAddress := 5, Args := [] })
      = { success := true, connClosed := true } :=
  (ipcClientCall_spec 5
    { MsgType := IPC_MSG_TYPE_CLOSE_CONN, MacAddress := 5, Args := [] }).2.1 rfl rfl

/-- Claim C3, counterexample: a failed read on an established accepted
connection does not terminate the background reader and does not drop
the connection - the reader logs and continues - and a failed OK-reply
write after a matching-identity message likewise leaves the reader
running. The claim that the affected connection is dropped is false. -/
theorem serverReaderTransport_counterexample :
    (serverReaderStep 0 ReadEvent.readError).halts = false ∧
    (serverReaderStep 0 (ReadEvent.msg
        { MsgType := IPC_MSG_TYPE_OPEN_FILE, MacAddress := 0, Args := [GoValue.goString "a"] }
        false)).halts = false := by
  decide

/-- Claim C3 (amended): when a read on an established accepted
connection fails, or a reply write fails after a matching-identity
message, the failure is logged and the per-connection reader keeps
running on that same connection (the connection is not dropped), and
the server process and its listener keep running; a read failure also
leaves the whole server state unchanged. -/
theorem serverReaderTransport_spec (s : IpcServerState) (ev : ReadEvent)
    (h : ev = ReadEvent.readError ∨ ∃ m, ev = ReadEvent.msg m false ∧ m.MacAddress = s.mac) :
    (serverHandleEvent s ev).2.halts = false ∧
    (serverHandleEvent s ev).1.listenerOpen = s.listenerOpen ∧
    (serverHandleEvent s ev).1.mac = s.mac ∧
    (ev = ReadEvent.readError → serverHandleEvent s ev
      = (s, { reply := none, queued := none, halts := false })) := by
  rcases h with h | ⟨m, hev, hmac⟩
  · subst h
    exact ⟨rfl, rfl, rfl, fun _ => rfl⟩
  · subst hev
    refine ⟨?_, ?_, ?_, by intro h2; cases h2⟩
    · simp only [serverHandleEvent, serverReaderStep]
      rw [if_neg (by simp [hmac])]
      by_cases hc : m.MsgType = IPC_MSG_TYPE_CLOSE_CONN
      · rw [if_pos hc]
      · rw [if_neg hc]
    · simp only [serverHandleEvent, serverReaderStep]
      rw [if_neg (by simp [hmac])]
      by_cases hc : m.MsgType = IPC_MSG_TYPE_CLOSE_CONN
      · rw [if_pos hc]
      · rw [if_neg hc]
        simp [appendNewCall]
    · simp only [serverHandleEvent, serverReaderStep]
      rw [if_neg (by simp [hmac])]
      by_cases hc : m.MsgType = IPC_MSG_TYPE_CLOSE_CONN
      · rw [if_pos hc]
      · rw [if_neg hc]
        simp [appendNewCall]

/-- Claim C3 witness: a read failure on a live server leaves the server
running and the reader alive. -/
theorem serverReaderTransport_spec_witness :
    (serverHandleEvent { listenerOpen := true, mac := 9, calls := [] } ReadEvent.readError).2.halts
      = false :=
  (serverReaderTransport_spec { listenerOpen := true, mac := 9, calls := [] }
    ReadEvent.readError (Or.inl rfl)).1

/-- Claim C4: per decoded message, an identity mismatch silently
terminates the connection with no reply and nothing queued; a CLOSE is
acknowledged with the encoded CLOSE and ends the reader; any other
message is appended to the call queue exactly once and acknowledged
with OK. End to end, an OPEN_FILE call carrying the server identity
round-trips the wire intact, enqueues exactly that one record, and the
acknowledging OK reply makes the client report success; a forged
identity enqueues nothing, gets no reply, and the dropped connection
surfaces to the client as a read error, reported as failure. -/
theorem serverMessageHandling_spec (s : IpcServerState) (m : IpcFuncCall) (w : Bool)
    (path : String) :
    (m.MacAddress ≠ s.mac →
      serverHandleEvent s (ReadEvent.msg m w)
        = (s, { reply := none, queued := none, halts := true })) ∧
    (m.MacAddress = s.mac → m.MsgType = IPC_MSG_TYPE_CLOSE_CONN →
      serverHandleEvent s (ReadEvent.msg m true)
        = (s, { reply := some (encodedCLOSE s.mac), queued := none, halts := true })) ∧
    (m.MacAddress = s.mac → m.MsgType ≠ IPC_MSG_TYPE_CLOSE_CONN →
      serverHandleEvent s (ReadEvent.msg m true)
        = ({ s with calls := s.calls ++ [m] },
           { reply := some (encodedOK s.mac), queued := some m, halts := false })) ∧
    (jsonUnmarshal (jsonMarshal
        { MsgType := IPC_MSG_TYPE_OPEN_FILE, MacAddress := s.mac, Args := [GoValue.goString path] })
      = { MsgType := IPC_MSG_TYPE_OPEN_FILE, MacAddress := s.mac, Args := [GoValue.goString path] }) ∧
    (serverHandleEvent s (ReadEvent.msg
        { MsgType := IPC_MSG_TYPE_OPEN_FILE, MacAddress := s.mac, Args := [GoValue.goString path] }
        true)
      = ({ s with calls := s.calls ++ [⟨IPC_MSG_TYPE_OPEN_FILE, s.mac, [GoValue.goString path]⟩] },
         { reply := some (encodedOK s.mac),
           queued := some ⟨IPC_MSG_TYPE_OPEN_FILE, s.mac, [GoValue.goString path]⟩,
           halts := false })) ∧
    (IpcClientCall s.mac (CallNetOutcome.replied (jsonUnmarshal (encodedOK s.mac)))
      = { success := true, connClosed := false }) ∧
    (m.MacAddress ≠ s.mac →
      (serverHandleEvent s (ReadEvent.msg m w)).1.calls = s.calls ∧
      IpcClientCall m.MacAddress CallNetOutcome.readError
        = { success := false, connClosed := false }) := by
  refine ⟨?_, ?_, ?_, rfl, ?_, ?_, ?_⟩
  · intro h
    simp only [serverHandleEvent, serverReaderStep]
    rw [if_pos h]
  · intro h1 h2
    simp only [serverHandleEvent, serverReaderStep]
    rw [if_neg (by simp [h1]), if_pos h2]
  · intro h1 h2
    simp only [serverHandleEvent, serverReaderStep]
    rw [if_neg (by simp [h1]), if_neg h2]
    simp [appendNewCall]
  · simp only [serverHandleEvent, serverReaderStep]
    rw [if_neg (by simp), if_neg (by decide)]
    simp [appendNewCall]
  · simp only [encodedOK, jsonMarshal, jsonUnmarshal, IpcClientCall]
    rw [if_neg (by simp)]
    rw [if_neg (by decide)]
    rw [if_neg (by simp [IPC_MSG_TYPE_OK])]
  · intro h
    refine ⟨?_, rfl⟩
    simp only [serverHandleEvent, serverReaderStep]
    rw [if_pos h]

/-- Claim C4 witness: a matching-identity OPEN_FILE message is queued
exactly once and acknowledged with the encoded OK. -/
theorem serverMessageHandling_spec_witness :
    serverHandleEvent { listenerOpen := true, mac := 7, calls := [] }
        (ReadEvent.msg
          { MsgType := IPC_MSG_TYPE_OPEN_FILE, MacAddress := 7, Args := [GoValue.goString "f"] }
          true)
      = ({ listenerOpen := true, mac := 7,
           calls := [⟨IPC_MSG_TYPE_OPEN_FILE, 7, [GoValue.goString "f"]⟩] },
         { reply := some (encodedOK 7),
           queued := some ⟨IPC_MSG_TYPE_OPEN_FILE, 7, [GoValue.goString "f"]⟩,
           halts := false }) :=
  (serverMessageHandling_spec { listenerOpen := true, mac := 7, calls := [] }
    { MsgType := IPC_MSG_TYPE_OPEN_FILE, MacAddress := 7, Args := [GoValue.goString "f"] }
    true "f").2.2.1 rfl (by decide)

/-- Claim C5: getMacAddress returns 0 when the interface list cannot be
obtained; otherwise it returns, for the first interface that is up, has
a nonempty hardware address and whose first octet does not have the bit
of value 2 set, the plain big-endian accumulation of the first 8
hardware-address bytes (the uint64 wrap never fires and the value fits
in 64 bits); 0 when no interface qualifies. -/
theorem getMacAddress_spec :
    getMacAddress none = 0 ∧
    (∀ ifs : List NetInterface,
      getMacAddress (some ifs)
        = ((ifs.find? usableInterfaceSpec).map fun i => macFromBytes i.hardwareAddr).getD 0) ∧
    (∀ addr : List (Fin 256),
      macFromBytes addr = (addr.take 8).foldl (fun mac b => mac * 256 + b.val) 0 ∧
      macFromBytes addr < 2 ^ 64) :=
  ⟨rfl, fun ifs => getMacAddressLoop_eq_find ifs, fun addr => macFromBytes_eq_plain addr⟩

/-- Claim C6: for both the vertex and the element buffer, an update
whose count differs from the recorded count issues a full
reallocate-and-upload (BufferData) and records the new length, while an
update with an equal count issues an in-place content-only upload
(BufferSubData); hence two consecutive updates with equal counts never
reallocate on the second, and consecutive updates with differing counts
always reallocate on the second. -/
theorem bufferUpdatePolicy_spec (n : Nat) (vd vd2 : List Vertex) (ed ed2 : List Nat) :
    (n ≠ vd.length → RGL_UpdateVertexData n vd = (vd.length, GLUploadKind.bufferData)) ∧
    (n = vd.length → RGL_UpdateVertexData n vd = (n, GLUploadKind.bufferSubData)) ∧
    (vd.length = vd2.length →
      (RGL_UpdateVertexData (RGL_UpdateVertexData n vd).1 vd2).2 = GLUploadKind.bufferSubData) ∧
    (vd.length ≠ vd2.length →
      (RGL_UpdateVertexData (RGL_UpdateVertexData n vd).1 vd2).2 = GLUploadKind.bufferData) ∧
    (n ≠ ed.length → RGL_UpdateElementData n ed = (ed.length, GLUploadKind.bufferData)) ∧
    (n = ed.length → RGL_UpdateElementData n ed = (n, GLUploadKind.bufferSubData)) ∧
    (ed.length = ed2.length →
      (RGL_UpdateElementData (RGL_UpdateElementData n ed).1 ed2).2 = GLUploadKind.bufferSubData) ∧
    (ed.length ≠ ed2.length →
      (RGL_UpdateElementData (RGL_UpdateElementData n ed).1 ed2).2 = GLUploadKind.bufferData) := by
  have hv1 : (RGL_UpdateVertexData n vd).1 = vd.length := by
    unfold RGL_UpdateVertexData
    by_cases h : n ≠ vd.length
    · rw [if_pos h]
    · rw [if_neg h]
      exact not_not.mp h
  have he1 : (RGL_UpdateElementData n ed).1 = ed.length := by
    unfold RGL_UpdateElementData
    by_cases h : n ≠ ed.length
    · rw [if_pos h]
    · rw [if_neg h]
      exact not_not.mp h
  refine ⟨?_, ?_, ?_, ?_, ?_, ?_, ?_, ?_⟩
  · intro h
    unfold RGL_UpdateVertexData
    rw [if_pos h]
  · intro h
    unfold RGL_UpdateVertexData
    rw [if_neg (not_not.mpr h), h]
  · intro h
    rw [hv1]
    unfold RGL_UpdateVertexData
    rw [if_neg (not_not.mpr h)]
  · intro h
    rw [hv1]
    unfold RGL_UpdateVertexData
    rw [if_pos h]
  · intro h
    unfold RGL_UpdateElementData
    rw [if_pos h]
  · intro h
    unfold RGL_UpdateElementData
    rw [if_neg (not_not.mpr h), h]
  · intro h
    rw [he1]
    unfold RGL_UpdateElementData
    rw [if_neg (not_not.mpr h)]
  · intro h
    rw [he1]
    unfold RGL_UpdateElementData
    rw [if_pos h]

/-- Claim C6 witness: growing the element buffer from 0 to 6 entries
reallocates, and repeating the same 6 entries patches in place. -/
theorem bufferUpdatePolicy_spec_witness :
    RGL_UpdateElementData 0 [0, 1, 2, 2, 1, 3] = (6, GLUploadKind.bufferData) ∧
    (RGL_UpdateElementData
        (RGL_UpdateElementData 0 [0, 1, 2, 2, 1, 3]).1 [0, 1, 2, 2, 3, 1]).2
      = GLUploadKind.bufferSubData :=
  ⟨(bufferUpdatePolicy_spec 0 [] [] [0, 1, 2, 2, 1, 3] [0, 1, 2, 2, 3, 1]).2.2.2.2.1
      (by decide),
   (bufferUpdatePolicy_spec 0 [] [] [0, 1, 2, 2, 1, 3] [0, 1, 2, 2, 3, 1]).2.2.2.2.2.2.1
      (by decide)⟩

/-- Claim C9: the version gate of the UI-attach handshake. The code
message documents the intended minimum version 0.4.0, and on every 0.x
version the implemented gate agrees with that intent (0.3.9 is fatal,
0.4.0 and 0.5.0 pass); but the gate compares only the minor component,
so the reported version 1.0.0, which is at or above 0.4.0, is also
rejected fatally, contradicting the documented minimum. -/
theorem versionGate_divergence :
    requestApiInfoFatal 0 3 9 = true ∧ versionBelowMinSpec 0 3 9 = true ∧
    requestApiInfoFatal 0 4 0 = false ∧ versionBelowMinSpec 0 4 0 = false ∧
    requestApiInfoFatal 0 5 0 = false ∧ versionBelowMinSpec 0 5 0 = false ∧
    requestApiInfoFatal 1 0 0 = true ∧ versionBelowMinSpec 1 0 0 = false := by
  decide

/-- Claim C10: the once-per-tick dispatch of IpcServer.update is total
exactly under the stated precondition - every queued dispatchable call
carries a nonempty Args whose first element has the expected dynamic
type - and the receive path does not establish it: a matching-identity
GOTO_LINE message whose first argument is a string is queued as-is by
the reader, and dispatching that queue panics (none). -/
theorem dispatchTotality_spec :
    (∀ calls : List IpcFuncCall,
      (∀ c ∈ calls, ipcCallArgsWellFormed c = true) → (IpcServerUpdate calls).isSome = true) ∧
    IpcServerUpdate [⟨IPC_MSG_TYPE_GOTO_LINE, 0, [GoValue.goString "x"]⟩] = none ∧
    (serverReaderStep 0 (ReadEvent.msg ⟨IPC_MSG_TYPE_GOTO_LINE, 0, [GoValue.goString "x"]⟩ true)).queued
      = some ⟨IPC_MSG_TYPE_GOTO_LINE, 0, [GoValue.goString "x"]⟩ := by
  refine ⟨?_, by decide, by decide⟩
  intro calls h
  induction calls with
  | nil => rfl
  | cons c rest ih =>
    have hc : (dispatchIpcCall c).isSome = true :=
      dispatchIpcCall_isSome_of_wf c (h c (List.mem_cons_self c rest))
    have hrest : (IpcServerUpdate rest).isSome = true :=
      ih (fun d hd => h d (List.mem_cons_of_mem c hd))
    unfold IpcServerUpdate
    cases hdc : dispatchIpcCall c with
    | none => rw [hdc] at hc; simp at hc
    | some op =>
      cases hru : IpcServerUpdate rest with
      | none => rw [hru] at hrest; simp at hrest
      | some ops => simp

/-- Claim C10 witness: a queue of one well-formed OPEN_FILE call
dispatches without panic. -/
theorem dispatchTotality_spec_witness :
    (IpcServerUpdate [⟨IPC_MSG_TYPE_OPEN_FILE, 0, [GoValue.goString "f"]⟩]).isSome = true :=
  dispatchTotality_spec.1 [⟨IPC_MSG_TYPE_OPEN_FILE, 0, [GoValue.goString "f"]⟩] (by decide)

/-- On a non-modifier, non-release key event whose name resolution
drops the event, the handler forwards nothing and does nothing. -/
theorem keyHandler_dropped (opts : InputOptions) (f : Int → Int → String) (lastMods : String)
    (key scancode : Int) (action : GlfwAction) (mods : Nat)
    (hmod : ModifierKeys key = none) (hact : action ≠ GlfwAction.release)
    (hres : resolveKeyname f key scancode (modControl mods) (modShift mods) (modAlt mods)
      (modSuper mods) = none) :
    KeyEventHandler opts f lastMods key scancode action mods
      = { lastMouseModifiers := lastMods, forwarded := none, binding := none,
          menuHidden := false } := by
  simp only [KeyEventHandler, hmod]
  rw [if_pos hact]
  simp only [hres]

/-- On a non-modifier, non-release key event with a resolved name, the
handler is the binding-interception chain applied to the built token. -/
theorem keyHandler_token (opts : InputOptions) (f : Int → Int → String) (lastMods : String)
    (key scancode : Int) (action : GlfwAction) (mods : Nat) (keyname : String)
    (hmod : ModifierKeys key = none) (hact : action ≠ GlfwAction.release)
    (hres : resolveKeyname f key scancode (modControl mods) (modShift mods) (modAlt mods)
      (modSuper mods) = some keyname) :
    KeyEventHandler opts f lastMods key scancode action mods
      = (if buildKeycode (modControl mods) (modShift mods) (modAlt mods) (modSuper mods) keyname
            = opts.zoomInKey then
          { lastMouseModifiers := lastMods, forwarded := none,
            binding := some NeorayBinding.zoomIn, menuHidden := false }
        else if buildKeycode (modControl mods) (modShift mods) (modAlt mods) (modSuper mods) keyname
            = opts.zoomOutKey then
          { lastMouseModifiers := lastMods, forwarded := none,
            binding := some NeorayBinding.zoomOut, menuHidden := false }
        else if buildKeycode (modControl mods) (modShift mods) (modAlt mods) (modSuper mods) keyname
            = opts.toggleFullscreenKey then
          { lastMouseModifiers := lastMods, forwarded := none,
            binding := some NeorayBinding.toggleFullscreen, menuHidden := false }
        else if buildKeycode (modControl mods) (modShift mods) (modAlt mods) (modSuper mods) keyname
            = "<ESC>" then
          { lastMouseModifiers := lastMods,
            forwarded := some (buildKeycode (modControl mods) (modShift mods) (modAlt mods)
              (modSuper mods) keyname),
            binding := none, menuHidden := opts.popupMenuEnabled }
        else
          { lastMouseModifiers := lastMods,
            forwarded := some (buildKeycode (modControl mods) (modShift mods) (modAlt mods)
              (modSuper mods) keyname),
            binding := none, menuHidden := false }) := by
  simp only [KeyEventHandler, hmod]
  rw [if_pos hact]
  simp only [hres]

/-- Claim C7: for every non-release, non-modifier key event, the key
name comes from the fixed named-key table or, when the table has no
entry and only Control is active, from the platform key-name lookup (an
empty lookup result drops the event); when Shift, Alt or Super is
active without a named-table entry the event is dropped with nothing
forwarded; any token that is forwarded is < followed by the modifier
prefixes in the fixed order Control, Shift, Alt, Super (each only when
active, as single letters) followed by the key name and >; concretely,
Control plus the a key (key 65 absent from the table, platform lookup
returning a) forwards <C-a>, while Shift plus the a key alone forwards
nothing. -/
theorem keyEncoding_spec (opts : InputOptions) (f : Int → Int → String) (lastMods : String)
    (key scancode : Int) (action : GlfwAction) (mods : Nat)
    (hmod : ModifierKeys key = none) (hact : action ≠ GlfwAction.release) :
    (∀ name, SpecialKeys key = some name →
      ∀ tok, (KeyEventHandler opts f lastMods key scancode action mods).forwarded = some tok →
        tok = "<" ++ (if modControl mods then "C-" else "")
            ++ (if modShift mods then "S-" else "") ++ (if modAlt mods then "A-" else "")
            ++ (if modSuper mods then "D-" else "") ++ name ++ ">") ∧
    (SpecialKeys key = none → modControl mods = true → modShift mods = false →
      modAlt mods = false → modSuper mods = false →
      ∀ tok, (KeyEventHandler opts f lastMods key scancode action mods).forwarded = some tok →
        tok = "<C-" ++ f key scancode ++ ">") ∧
    (SpecialKeys key = none → (modShift mods || modAlt mods || modSuper mods) = true →
      KeyEventHandler opts f lastMods key scancode action mods
        = { lastMouseModifiers := lastMods, forwarded := none, binding := none,
            menuHidden := false }) ∧
    (SpecialKeys key = none → modControl mods = true → modShift mods = false →
      modAlt mods = false → modSuper mods = false → f key scancode = "" →
      KeyEventHandler opts f lastMods key scancode action mods
        = { lastMouseModifiers := lastMods, forwarded := none, binding := none,
            menuHidden := false }) ∧
    KeyEventHandler defaultInputOptions (fun _ _ => "a") "" 65 0 GlfwAction.press 2
      = { lastMouseModifiers := "", forwarded := some ("<C-a>"), binding := none,
          menuHidden := false } ∧
    KeyEventHandler defaultInputOptions (fun _ _ => "a") "" 65 0 GlfwAction.press 1
      = { lastMouseModifiers := "", forwarded := none, binding := none,
          menuHidden := false } := by
  refine ⟨?_, ?_, ?_, ?_, by decide, by decide⟩
  · intro name hname tok htok
    have hres : resolveKeyname f key scancode (modControl mods) (modShift mods) (modAlt mods)
        (modSuper mods) = some name := by
      simp [resolveKeyname, hname]
    rw [keyHandler_token opts f lastMods key scancode action mods name hmod hact hres] at htok
    by_cases h1 : buildKeycode (modControl mods) (modShift mods) (modAlt mods) (modSuper mods)
        name = opts.zoomInKey
    · rw [if_pos h1] at htok
      simp at htok
    · rw [if_neg h1] at htok
      by_cases h2 : buildKeycode (modControl mods) (modShift mods) (modAlt mods) (modSuper mods)
          name = opts.zoomOutKey
      · rw [if_pos h2] at htok
        simp at htok
      · rw [if_neg h2] at htok
        by_cases h3 : buildKeycode (modControl mods) (modShift mods) (modAlt mods) (modSuper mods)
            name = opts.toggleFullscreenKey
        · rw [if_pos h3] at htok
          simp at htok
        · rw [if_neg h3] at htok
          by_cases h4 : buildKeycode (modControl mods) (modShift mods) (modAlt mods)
              (modSuper mods) name = "<ESC>"
          · rw [if_pos h4] at htok
            simp only [Option.some.injEq] at htok
            rw [← htok]
            rfl
          · rw [if_neg h4] at htok
            simp only [Option.some.injEq] at htok
            rw [← htok]
            rfl
  · intro hname hctrl hshift halt2 hsup tok htok
    by_cases hne : f key scancode = ""
    · have hres : resolveKeyname f key scancode (modControl mods) (modShift mods) (modAlt mods)
          (modSuper mods) = none := by
        simp [resolveKeyname, hname, hctrl, hshift, halt2, hsup, hne]
      rw [keyHandler_dropped opts f lastMods key scancode action mods hmod hact hres] at htok
      simp at htok
    · have hres : resolveKeyname f key scancode (modControl mods) (modShift mods) (modAlt mods)
          (modSuper mods) = some (f key scancode) := by
        simp [resolveKeyname, hname, hctrl, hshift, halt2, hsup, hne]
      rw [keyHandler_token opts f lastMods key scancode action mods (f key scancode) hmod hact
        hres] at htok
      rw [hctrl, hshift, halt2, hsup] at htok
      by_cases h1 : buildKeycode true false false false (f key scancode) = opts.zoomInKey
      · rw [if_pos h1] at htok
        simp at htok
      · rw [if_neg h1] at htok
        by_cases h2 : buildKeycode true false false false (f key scancode) = opts.zoomOutKey
        · rw [if_pos h2] at htok
          simp at htok
        · rw [if_neg h2] at htok
          by_cases h3 : buildKeycode true false false false (f key scancode)
              = opts.toggleFullscreenKey
          · rw [if_pos h3] at htok
            simp at htok
          · rw [if_neg h3] at htok
            by_cases h4 : buildKeycode true false false false (f key scancode) = "<ESC>"
            · rw [if_pos h4] at htok
              simp only [Option.some.injEq] at htok
              rw [← htok]
              rfl
            · rw [if_neg h4] at htok
              simp only [Option.some.injEq] at htok
              rw [← htok]
              rfl
  · intro hname hsau
    have hres : resolveKeyname f key scancode (modControl mods) (modShift mods) (modAlt mods)
        (modSuper mods) = none := by
      simp [resolveKeyname, hname, hsau]
    exact keyHandler_dropped opts f lastMods key scancode action mods hmod hact hres
  · intro hname hctrl hshift halt2 hsup hfe
    have hres : resolveKeyname f key scancode (modControl mods) (modShift mods) (modAlt mods)
        (modSuper mods) = none := by
      simp [resolveKeyname, hname, hctrl, hshift, halt2, hsup, hfe]
    exact keyHandler_dropped opts f lastMods key scancode action mods hmod hact hres

/-- Claim C8, counterexample: with the popup menu feature enabled,
pressing Escape makes the handler hide the popup menu and still forward
the <ESC> token. The escape event is never consumed: the source breaks
out of the interception switch and falls through to nvim.Input, and it
consults only the feature flag, not menu visibility, refuting the claim
that a visible menu makes escape consumed without forwarding. -/
theorem escapeForwarded_counterexample :
    (KeyEventHandler defaultInputOptions (fun _ _ => "") "" 256 0 GlfwAction.press 0).menuHidden
      = true ∧
    (KeyEventHandler defaultInputOptions (fun _ _ => "") "" 256 0 GlfwAction.press 0).forwarded
      = some ("<ESC>") := by
  decide

/-- Claim C8 (amended): the only key tokens consumed without being
forwarded to the backend are the three bindable tokens, matched exactly
in the order zoom in, zoom out, toggle fullscreen; the fixed escape
token additionally hides the popup menu exactly when the popup menu
feature flag is enabled but is still forwarded; every other constructed
token is forwarded unchanged. -/
theorem keyInterception_spec (opts : InputOptions) (f : Int → Int → String) (lastMods : String)
    (key scancode : Int) (action : GlfwAction) (mods : Nat) (keyname : String)
    (hmod : ModifierKeys key = none) (hact : action ≠ GlfwAction.release)
    (hres : resolveKeyname f key scancode (modControl mods) (modShift mods) (modAlt mods)
      (modSuper mods) = some keyname) :
    (buildKeycode (modControl mods) (modShift mods) (modAlt mods) (modSuper mods) keyname
        = opts.zoomInKey →
      KeyEventHandler opts f lastMods key scancode action mods
        = { lastMouseModifiers := lastMods, forwarded := none,
            binding := some NeorayBinding.zoomIn, menuHidden := false }) ∧
    (buildKeycode (modControl mods) (modShift mods) (modAlt mods) (modSuper mods) keyname
        ≠ opts.zoomInKey →
      buildKeycode (modControl mods) (modShift mods) (modAlt mods) (modSuper mods) keyname
        = opts.zoomOutKey →
      KeyEventHandler opts f lastMods key scancode action mods
        = { lastMouseModifiers := lastMods, forwarded := none,
            binding := some NeorayBinding.zoomOut, menuHidden := false }) ∧
    (buildKeycode (modControl mods) (modShift mods) (modAlt mods) (modSuper mods) keyname
        ≠ opts.zoomInKey →
      buildKeycode (modControl mods) (modShift mods) (modAlt mods) (modSuper mods) keyname
        ≠ opts.zoomOutKey →
      buildKeycode (modControl mods) (modShift mods) (modAlt mods) (modSuper mods) keyname
        = opts.toggleFullscreenKey →
      KeyEventHandler opts f lastMods key scancode action mods
        = { lastMouseModifiers := lastMods, forwarded := none,
            binding := some NeorayBinding.toggleFullscreen, menuHidden := false }) ∧
    (buildKeycode (modControl mods) (modShift mods) (modAlt mods) (modSuper mods) keyname
        ≠ opts.zoomInKey →
      buildKeycode (modControl mods) (modShift mods) (modAlt mods) (modSuper mods) keyname
        ≠ opts.zoomOutKey →
      buildKeycode (modControl mods) (modShift mods) (modAlt mods) (modSuper mods) keyname
        ≠ opts.toggleFullscreenKey →
      buildKeycode (modControl mods) (modShift mods) (modAlt mods) (modSuper mods) keyname
        = "<ESC>" →
      KeyEventHandler opts f lastMods key scancode action mods
        = { lastMouseModifiers := lastMods,
            forwarded := some (buildKeycode (modControl mods) (modShift mods) (modAlt mods)
              (modSuper mods) keyname),
            binding := none, menuHidden := opts.popupMenuEnabled }) ∧
    (buildKeycode (modControl mods) (modShift mods) (modAlt mods) (modSuper mods) keyname
        ≠ opts.zoomInKey →
      buildKeycode (modControl mods) (modShift mods) (modAlt mods) (modSuper mods) keyname
        ≠ opts.zoomOutKey →
      buildKeycode (modControl mods) (modShift mods) (modAlt mods) (modSuper mods) keyname
        ≠ opts.toggleFullscreenKey →
      buildKeycode (modControl mods) (modShift mods) (modAlt mods) (modSuper mods) keyname
        ≠ "<ESC>" →
      KeyEventHandler opts f lastMods key scancode action mods
        = { lastMouseModifiers := lastMods,
            forwarded := some (buildKeycode (modControl mods) (modShift mods) (modAlt mods)
              (modSuper mods) keyname),
            binding := none, menuHidden := false }) := by
  have hT := keyHandler_token opts f lastMods key scancode action mods keyname hmod hact hres
  refine ⟨?_, ?_, ?_, ?_, ?_⟩
  · intro h1
    rw [hT, if_pos h1]
  · intro h1 h2
    rw [hT, if_neg h1, if_pos h2]
  · intro h1 h2 h3
    rw [hT, if_neg h1, if_neg h2, if_pos h3]
  · intro h1 h2 h3 h4
    rw [hT, if_neg h1, if_neg h2, if_neg h3, if_pos h4]
  · intro h1 h2 h3 h4
    rw [hT, if_neg h1, if_neg h2, if_neg h3, if_neg h4]

/-- Claim C8 witness: the default zoom-in binding <C-+> is consumed
by exact match and not forwarded. -/
theorem keyInterception_spec_witness :
    KeyEventHandler defaultInputOptions (fun _ _ => "+") "" 61 0 GlfwAction.press 2
      = { lastMouseModifiers := "", forwarded := none,
          binding := some NeorayBinding.zoomIn, menuHidden := false } :=
  (keyInterception_spec defaultInputOptions (fun _ _ => "+") "" 61 0 GlfwAction.press 2 "+"
    (by decide) (by decide) (by decide)).1 (by decide)

/-- Claim C7 witness: Shift plus the b key (key 66, no named-table
entry) is dropped with nothing forwarded. -/
theorem keyEncoding_spec_witness :
    KeyEventHandler defaultInputOptions (fun _ _ => "q") "" 66 0 GlfwAction.press 1
      = { lastMouseModifiers := "", forwarded := none, binding := none, menuHidden := false } :=
  (keyEncoding_spec defaultInputOptions (fun _ _ => "q") "" 66 0 GlfwAction.press 1
    (by decide) (by decide)).2.2.1 (by decide) (by decide)
